import Mathlib

/-!
Verification development for the Google Drive MCP server (`src/index.ts`).

The server is a thin dispatch layer: a fixed registry of eight tools, each
handler validating string arguments, obtaining an authenticated Drive client,
issuing one or more remote calls, and rendering a text result.  We embed the
handlers shallowly: the remote Drive service is an oracle carried in an
environment record, each handler is a function in a state-passing monad that
records the list of remote requests it issues, and machine-level JavaScript
behaviours (`parseInt`, `||` defaulting, truthiness, `toFixed(2)`) are
modelled explicitly.
-/

/-! ## JavaScript primitive models -/

/-- Value of a leading run of decimal digits; `none` when there is no digit
(JS `parseInt` returns `NaN` in that case). -/
def decDigitsVal (cs : List Char) : Option Nat :=
  let ds := cs.takeWhile Char.isDigit
  if ds.isEmpty then none
  else some (ds.foldl (fun acc c => acc * 10 + (c.toNat - '0'.toNat)) 0)

/-- Hexadecimal digit test, as accepted by JS `parseInt` after a `0x` prefix. -/
def isHexDigitChar (c : Char) : Bool :=
  c.isDigit || ('a' ≤ c && c ≤ 'f') || ('A' ≤ c && c ≤ 'F')

/-- Numeric value of one hexadecimal digit. -/
def hexDigitVal (c : Char) : Nat :=
  if c.isDigit then c.toNat - '0'.toNat
  else if 'a' ≤ c && c ≤ 'f' then c.toNat - 'a'.toNat + 10
  else c.toNat - 'A'.toNat + 10

/-- Value of a leading run of hexadecimal digits; `none` when empty. -/
def hexDigitsVal (cs : List Char) : Option Nat :=
  let ds := cs.takeWhile isHexDigitChar
  if ds.isEmpty then none
  else some (ds.foldl (fun acc c => acc * 16 + hexDigitVal c) 0)

/-- Unsigned part of JS `parseInt` (radix unspecified): a `0x`/`0X` prefix
selects hexadecimal, otherwise the longest leading run of decimal digits. -/
def jsParseIntUnsigned : List Char → Option Nat
  | '0' :: 'x' :: rest => hexDigitsVal rest
  | '0' :: 'X' :: rest => hexDigitsVal rest
  | cs => decDigitsVal cs

/-- Model of JS `parseInt(s)` (no explicit radix): skip leading whitespace,
optional sign, then the longest valid digit prefix; `none` models `NaN`.
(Double-precision rounding of very large results is not modelled; all
claim-relevant values are far below 2^53, where `parseInt` is exact.) -/
def jsParseInt (s : String) : Option Int :=
  match s.data.dropWhile Char.isWhitespace with
  | '-' :: rest => (jsParseIntUnsigned rest).map (fun n => -(n : Int))
  | '+' :: rest => (jsParseIntUnsigned rest).map (fun n => (n : Int))
  | cs => (jsParseIntUnsigned cs).map (fun n => (n : Int))

/-- Two-digit zero-padded rendering of `n < 100`. -/
def pad2 (n : Nat) : String :=
  if n < 10 then "0" ++ toString n else toString n

/-- `toFixed(2)` on a nonnegative rational: round half away from zero to two
decimals and render `intPart.dd`. -/
def fix2OfNonneg (q : ℚ) : String :=
  let n : Nat := (⌊q * 100 + 1 / 2⌋).toNat
  toString (n / 100) ++ "." ++ pad2 (n % 100)

/-- Model of JS `Number.prototype.toFixed(2)`: for negative numbers the sign
is prepended and the magnitude formatted (ties round away from zero, as the
ES spec's "pick the larger n" rule does on the magnitude).  The handlers only
ever divide by powers of 1024, which is exact in binary floating point, so
the rational value here coincides with the JS double. -/
def toFixed2 (q : ℚ) : String :=
  if q < 0 then "-" ++ fix2OfNonneg (-q) else fix2OfNonneg q

/-- JS truthiness of an optional string (`undefined`/`null`/`""` are falsy). -/
def optTruthy : Option String → Bool
  | none => false
  | some s => !(s = "")

/-- Rendering of an optional string in a template literal: JS prints
`undefined` for a missing value. -/
def showOpt : Option String → String
  | none => "undefined"
  | some s => s

/-- JS `a || d` where `a` is an optional string and `d` a default. -/
def jsOrDefault (o : Option String) (d : String) : String :=
  if optTruthy o then showOpt o else d

/-- JS `a || b` on two optional strings, rendered into a template literal. -/
def jsOrStr (a b : Option String) : String :=
  if optTruthy a then showOpt a else showOpt b

/-- A conditional rendered line: JS `if (x) { out += pre + x + post }`. -/
def optLine (pre : String) (o : Option String) (post : String) : String :=
  match o with
  | some s => if s = "" then "" else pre ++ s ++ post
  | none => ""

/-- Model of JS `String#trim`: strip leading and trailing whitespace.
(Defined structurally over the character list so that it evaluates in the
kernel; `String.trim` of the Lean core library does not.) -/
def jsTrim (s : String) : String :=
  String.mk (((s.data.dropWhile Char.isWhitespace).reverse.dropWhile
    Char.isWhitespace).reverse)

/-! ## Formatting utilities (`formatError`, `formatFileSize`, `formatDate`) -/

/-- `formatError`: render an error message for user display. -/
def formatError (msg : String) : String :=
  "❌ Error: " ++ msg

/-- The unit ladder `["B", "KB", "MB", "GB", "TB"]` indexed by `unitIndex`. -/
def sizeUnit : Nat → String
  | 0 => "B"
  | 1 => "KB"
  | 2 => "MB"
  | 3 => "GB"
  | _ => "TB"

/-- The `while (fileSize >= 1024 && unitIndex < units.length - 1)` loop of
`formatFileSize`, with fuel: the guard `unitIndex < 4` bounds the loop to at
most four iterations starting from index 0, so fuel 4 is exact. -/
def scaleLoopF : Nat → ℚ → Nat → ℚ × Nat
  | 0, q, i => (q, i)
  | fuel + 1, q, i =>
    if 1024 ≤ q ∧ i < 4 then scaleLoopF fuel (q / 1024) (i + 1) else (q, i)

/-- Entry point of the scaling loop at `unitIndex = 0`. -/
def scaleLoop (q : ℚ) : ℚ × Nat := scaleLoopF 4 q 0

/-- `formatFileSize(bytes)`: `"N/A"` on falsy input or `NaN` parse, otherwise
repeated division by 1024 up to `TB`, rendered with `toFixed(2)`. -/
def formatFileSize (bytes : Option String) : String :=
  match bytes with
  | none => "N/A"
  | some b =>
    if b = "" then "N/A"
    else
      match jsParseInt b with
      | none => "N/A"
      | some size =>
        let p := scaleLoop ((size : ℚ))
        toFixed2 p.1 ++ " " ++ sizeUnit p.2

/-- `formatDate(dateString)`: `"N/A"` on falsy input, otherwise
`new Date(...).toLocaleString()`; the locale rendering of the runtime is an
uninterpreted function supplied by the environment. -/
def formatDate (locale : String → String) (dateString : Option String) : String :=
  match dateString with
  | none => "N/A"
  | some s => if s = "" then "N/A" else locale s

example : formatFileSize none = "N/A" := by decide
example : formatFileSize (some "abc") = "N/A" := by decide
example : jsParseInt "  -42x" = some (-42) := by decide
example : jsParseInt "0x1f" = some 31 := by decide

/-- Concrete evaluation of the spec's worked example: 1536 bytes render as
`"1.50 KB"`.  Rational arithmetic does not kernel-reduce, so the numeric
steps go through `norm_num`. -/
lemma formatFileSize_1536 : formatFileSize (some "1536") = "1.50 KB" := by
  have hp : jsParseInt "1536" = some 1536 := by decide
  have hcast : ((1536 : Int) : ℚ) = 1536 := by norm_num
  have hfloor : ⌊(3 / 2 : ℚ) * 100 + 1 / 2⌋ = 150 := by
    rw [show (3 / 2 : ℚ) * 100 + 1 / 2 = 301 / 2 by norm_num]
    rw [Int.floor_eq_iff]
    norm_num
  simp only [formatFileSize, hp, scaleLoop, hcast, scaleLoopF]
  rw [if_neg (by decide : ¬("1536" = ""))]
  rw [if_pos (by norm_num : (1024 : ℚ) ≤ 1536 ∧ (0 : ℕ) < 4)]
  rw [show (1536 : ℚ) / 1024 = 3 / 2 by norm_num]
  rw [if_neg (by norm_num : ¬((1024 : ℚ) ≤ 3 / 2 ∧ (0 + 1 : ℕ) < 4))]
  simp only [toFixed2, fix2OfNonneg]
  rw [if_neg (by norm_num : ¬((3 / 2 : ℚ) < 0)), hfloor]
  decide

/-! ## Data model: remote file records and remote requests -/

/-- An entry of `file.owners` as used by `getFileMetadata`. -/
structure DriveOwner where
  displayName : Option String
  emailAddress : Option String
deriving DecidableEq

/-- The projection of a Drive file record used by the handlers.  Every field
of the googleapis response type is nullable, hence `Option`. -/
structure DriveFile where
  id : Option String := none
  name : Option String := none
  mimeType : Option String := none
  size : Option String := none
  modifiedTime : Option String := none
  createdTime : Option String := none
  webViewLink : Option String := none
  webContentLink : Option String := none
  description : Option String := none
  owners : List DriveOwner := []
  shared : Option Bool := none
deriving DecidableEq

/-- Request body of `drive.files.create` (`fileMetadata` in the source). -/
structure CreateMeta where
  name : String
  mimeType : Option String := none
  parents : Option (List String) := none
deriving DecidableEq

/-- The `media` argument of `drive.files.create` in `uploadFile`. -/
structure MediaBody where
  mimeType : String
  body : String
deriving DecidableEq

/-- One remote call against the Drive service, as issued by the handlers.
`filesDelete` is the Drive API's permanent-delete endpoint; it is listed so
that "a permanent delete is never issued" is expressible, the server itself
never constructs it. -/
inductive DriveReq where
  | filesList (pageSize : Int) (q : String) (fields : String) (orderBy : String)
  | filesGet (fileId : String) (fields : String)
  | filesGetMedia (fileId : String)
  | filesExport (fileId : String) (mimeType : String)
  | filesCreate (meta : CreateMeta) (media : Option MediaBody) (fields : String)
  | permissionsCreate (fileId : String) (ptype : String) (role : String) (email : String)
  | filesUpdate (fileId : String) (trashed : Bool)
  | filesDelete (fileId : String)
deriving DecidableEq

/-- The process environment: the three credential secrets read from the
environment at startup, the remote Drive service (one oracle per endpoint,
each may fail with a message — `RemoteServiceError`), and the runtime's
locale date rendering (`Date#toLocaleString`). -/
structure DriveEnv where
  clientId : String
  clientSecret : String
  refreshToken : String
  filesList : Int → String → String → String → Except String (Option (List DriveFile))
  filesGet : String → String → Except String DriveFile
  filesGetMedia : String → Except String String
  filesExport : String → String → Except String String
  filesCreate : CreateMeta → Option MediaBody → String → Except String DriveFile
  permissionsCreate : String → String → String → String → Except String Unit
  filesUpdate : String → Bool → Except String Unit
  locale : String → String

/-! ## The handler monad: exceptions plus a trace of issued requests -/

/-- A handler computation: reads the environment, threads the list of remote
requests issued so far, and either produces a value or fails with an error
message (a thrown JS `Error`'s `.message`). -/
def DriveM (α : Type) : Type :=
  DriveEnv → List DriveReq → Except String α × List DriveReq

/-- Sequencing: on error the continuation is skipped but the trace of already
issued requests is kept. -/
def DriveM.bind (m : DriveM α) (f : α → DriveM β) : DriveM β :=
  fun env t =>
    match m env t with
    | (Except.ok a, t') => f a env t'
    | (Except.error e, t') => (Except.error e, t')

/-- Return a value without touching the trace. -/
def DriveM.pure (a : α) : DriveM α := fun _ t => (Except.ok a, t)

/-- Throw: models a JS `throw new Error(msg)` inside a handler. -/
def DriveM.throw (msg : String) : DriveM α := fun _ t => (Except.error msg, t)

/-- Read the environment (used for the locale function). -/
def getEnv : DriveM DriveEnv := fun env t => (Except.ok env, t)

/-- `validateRequired(value, name)`: trims, throws `"<name> is required"`
when the value is absent or whitespace-only. -/
def validateRequired (value name : String) : DriveM String :=
  fun _ t =>
    (if jsTrim value = "" then Except.error (name ++ " is required")
     else Except.ok (jsTrim value), t)

/-- The configuration error message of `getDriveClient`. -/
def missingCredsMsg : String :=
  "Missing Google Drive credentials. Set GOOGLE_CLIENT_ID, GOOGLE_CLIENT_SECRET, and GOOGLE_REFRESH_TOKEN"

/-- `getDriveClient()`: throws the configuration error when any of the three
secrets is empty; otherwise constructs the client (no remote call). -/
def getDriveClient : DriveM Unit :=
  fun env t =>
    (if env.clientId = "" ∨ env.clientSecret = "" ∨ env.refreshToken = "" then
       Except.error missingCredsMsg
     else Except.ok (), t)

/-- `drive.files.list`: the request is recorded, then answered by the oracle
(a failure models a rejected remote call that was nevertheless issued). -/
def callFilesList (pageSize : Int) (q fields orderBy : String) :
    DriveM (Option (List DriveFile)) :=
  fun env t =>
    (env.filesList pageSize q fields orderBy,
     t ++ [DriveReq.filesList pageSize q fields orderBy])

/-- `drive.files.get` fetching metadata with a field projection. -/
def callFilesGet (fileId fields : String) : DriveM DriveFile :=
  fun env t => (env.filesGet fileId fields, t ++ [DriveReq.filesGet fileId fields])

/-- `drive.files.get` with `alt: "media"` (raw content download). -/
def callFilesGetMedia (fileId : String) : DriveM String :=
  fun env t => (env.filesGetMedia fileId, t ++ [DriveReq.filesGetMedia fileId])

/-- `drive.files.export` to a target MIME type. -/
def callFilesExport (fileId mimeType : String) : DriveM String :=
  fun env t => (env.filesExport fileId mimeType, t ++ [DriveReq.filesExport fileId mimeType])

/-- `drive.files.create` with metadata, optional media body and projection. -/
def callFilesCreate (meta : CreateMeta) (media : Option MediaBody) (fields : String) :
    DriveM DriveFile :=
  fun env t => (env.filesCreate meta media fields, t ++ [DriveReq.filesCreate meta media fields])

/-- `drive.permissions.create` for a user-scoped permission. -/
def callPermissionsCreate (fileId ptype role email : String) : DriveM Unit :=
  fun env t =>
    (env.permissionsCreate fileId ptype role email,
     t ++ [DriveReq.permissionsCreate fileId ptype role email])

/-- `drive.files.update` setting the `trashed` flag. -/
def callFilesUpdate (fileId : String) (trashed : Bool) : DriveM Unit :=
  fun env t => (env.filesUpdate fileId trashed, t ++ [DriveReq.filesUpdate fileId trashed])

/-- The handler boundary: run a handler on an empty trace and catch any error
into `formatError` text (the `try { ... } catch (error) { return
formatError(error) }` wrapper every handler shares). -/
def runTool (m : DriveM String) (env : DriveEnv) : String × List DriveReq :=
  match m env [] with
  | (Except.ok s, t) => (s, t)
  | (Except.error e, t) => (formatError e, t)

/-! ## Tool handlers -/

/-- `Math.min(Math.max(parseInt(pageSize) || 10, 1), 100)`: the `|| 10`
default fires when `parseInt` yields `NaN` **or** `0` (both falsy). -/
def jsToPageSize (s : String) : Int :=
  let v : Int := match jsParseInt s with
    | none => 10
    | some n => if n = 0 then 10 else n
  min (max v 1) 100

/-- One numbered entry of the listing produced by `listFiles`/`searchFiles`. -/
def renderFileEntry (locale : String → String) (idx : Nat) (f : DriveFile) : String :=
  let icon := if f.mimeType = some "application/vnd.google-apps.folder"
    then "📁" else "📄"
  toString (idx + 1) ++ ". " ++ icon ++ " " ++ showOpt f.name ++ "\n" ++
  "   ID: " ++ showOpt f.id ++ "\n" ++
  "   Type: " ++ showOpt f.mimeType ++ "\n" ++
  "   Size: " ++ formatFileSize f.size ++ "\n" ++
  "   Modified: " ++ formatDate locale f.modifiedTime ++ "\n" ++
  optLine "   Link: " f.webViewLink "\n" ++
  "\n"

/-- The `files.forEach((file, index) => ...)` accumulation of list entries. -/
def renderEntries (locale : String → String) (idx : Nat) : List DriveFile → String
  | [] => ""
  | f :: rest => renderFileEntry locale idx f ++ renderEntries locale (idx + 1) rest

/-- `listFiles(folderId = "", pageSize = "10")`. -/
def listFiles (folderId : String) (pageSize : String) : DriveM String :=
  DriveM.bind getDriveClient fun _ =>
  let pageSizeNum := jsToPageSize pageSize
  let query :=
    if folderId ≠ "" ∧ jsTrim folderId ≠ "" then
      "trashed = false and '" ++ jsTrim folderId ++ "' in parents"
    else "trashed = false"
  DriveM.bind (callFilesList pageSizeNum query
      "files(id, name, mimeType, size, modifiedTime, webViewLink, iconLink)"
      "modifiedTime desc") fun files? =>
  DriveM.bind getEnv fun env =>
  match files? with
  | none => DriveM.pure "📁 No files found"
  | some files =>
    if files.isEmpty then DriveM.pure "📁 No files found"
    else DriveM.pure ("📁 Found " ++ toString files.length ++ " file(s):\n\n" ++
      renderEntries env.locale 0 files)

/-- `searchFiles(query = "", pageSize = "10")`: validation of `query`
precedes client construction. -/
def searchFiles (query : String) (pageSize : String) : DriveM String :=
  DriveM.bind (validateRequired query "query") fun searchQuery =>
  DriveM.bind getDriveClient fun _ =>
  let pageSizeNum := jsToPageSize pageSize
  let driveQuery := "name contains '" ++ searchQuery ++ "' and trashed = false"
  DriveM.bind (callFilesList pageSizeNum driveQuery
      "files(id, name, mimeType, size, modifiedTime, webViewLink)"
      "modifiedTime desc") fun files? =>
  DriveM.bind getEnv fun env =>
  match files? with
  | none => DriveM.pure ("🔍 No files found matching \"" ++ searchQuery ++ "\"")
  | some files =>
    if files.isEmpty then
      DriveM.pure ("🔍 No files found matching \"" ++ searchQuery ++ "\"")
    else DriveM.pure ("🔍 Found " ++ toString files.length ++
      " file(s) matching \"" ++ searchQuery ++ "\":\n\n" ++
      renderEntries env.locale 0 files)

/-- The metadata rendering of `getFileMetadata`. -/
def renderMetadata (locale : String → String) (file : DriveFile) : String :=
  "📄 File Metadata:\n\n" ++
  "Name: " ++ showOpt file.name ++ "\n" ++
  "ID: " ++ showOpt file.id ++ "\n" ++
  "Type: " ++ showOpt file.mimeType ++ "\n" ++
  "Size: " ++ formatFileSize file.size ++ "\n" ++
  "Created: " ++ formatDate locale file.createdTime ++ "\n" ++
  "Modified: " ++ formatDate locale file.modifiedTime ++ "\n" ++
  (match file.owners with
   | [] => ""
   | o :: _ => "Owner: " ++ jsOrStr o.displayName o.emailAddress ++ "\n") ++
  optLine "View Link: " file.webViewLink "\n" ++
  optLine "Download Link: " file.webContentLink "\n" ++
  optLine "Description: " file.description "\n" ++
  (match file.shared with
   | some true => "Shared: Yes\n"
   | _ => "")

/-- `getFileMetadata(fileId = "")`. -/
def getFileMetadata (fileId : String) : DriveM String :=
  DriveM.bind (validateRequired fileId "fileId") fun validFileId =>
  DriveM.bind getDriveClient fun _ =>
  DriveM.bind (callFilesGet validFileId "*") fun file =>
  DriveM.bind getEnv fun env =>
  DriveM.pure (renderMetadata env.locale file)

/-- `createFolder(folderName = "", parentFolderId = "")`. -/
def createFolder (folderName : String) (parentFolderId : String) : DriveM String :=
  DriveM.bind (validateRequired folderName "folderName") fun validFolderName =>
  DriveM.bind getDriveClient fun _ =>
  let fileMetadata : CreateMeta :=
    { name := validFolderName
      mimeType := some "application/vnd.google-apps.folder"
      parents :=
        if parentFolderId ≠ "" ∧ jsTrim parentFolderId ≠ "" then
          some [jsTrim parentFolderId]
        else none }
  DriveM.bind (callFilesCreate fileMetadata none "id, name, webViewLink") fun folder =>
  DriveM.pure ("✅ Folder created successfully:\n" ++
    "Name: " ++ showOpt folder.name ++ "\n" ++
    "ID: " ++ showOpt folder.id ++ "\n" ++
    "Link: " ++ jsOrDefault folder.webViewLink "N/A")

/-- `uploadFile(fileName = "", content = "", mimeType = "text/plain",
folderId = "")`. -/
def uploadFile (fileName content mimeType folderId : String) : DriveM String :=
  DriveM.bind (validateRequired fileName "fileName") fun validFileName =>
  DriveM.bind (validateRequired content "content") fun validContent =>
  DriveM.bind getDriveClient fun _ =>
  let fileMetadata : CreateMeta :=
    { name := validFileName
      parents :=
        if folderId ≠ "" ∧ jsTrim folderId ≠ "" then some [jsTrim folderId]
        else none }
  let media : MediaBody :=
    { mimeType := if mimeType = "" then "text/plain" else mimeType
      body := validContent }
  DriveM.bind (callFilesCreate fileMetadata (some media) "id, name, webViewLink, size")
    fun file =>
  DriveM.pure ("✅ File uploaded successfully:\n" ++
    "Name: " ++ showOpt file.name ++ "\n" ++
    "ID: " ++ showOpt file.id ++ "\n" ++
    "Size: " ++ formatFileSize file.size ++ "\n" ++
    "Link: " ++ jsOrDefault file.webViewLink "N/A")

/-- `mimeType?.startsWith("application/vnd.google-apps.")`: the optional
chaining makes an absent mimeType falsy; `startsWith` is the character-level
prefix test (expressed over the character lists so that it evaluates in the
kernel). -/
def isWorkspaceMime : Option String → Bool
  | none => false
  | some s => "application/vnd.google-apps.".data.isPrefixOf s.data

/-- The export-target chain of `downloadFile`: plain text by default and for
document/presentation types, CSV for spreadsheets. -/
def downloadExportMime (mimeType : Option String) : String :=
  if mimeType = some "application/vnd.google-apps.document" then "text/plain"
  else if mimeType = some "application/vnd.google-apps.spreadsheet" then "text/csv"
  else if mimeType = some "application/vnd.google-apps.presentation" then "text/plain"
  else "text/plain"

/-- `downloadFile(fileId = "")`: metadata first, then export for workspace
types, raw media download otherwise. -/
def downloadFile (fileId : String) : DriveM String :=
  DriveM.bind (validateRequired fileId "fileId") fun validFileId =>
  DriveM.bind getDriveClient fun _ =>
  DriveM.bind (callFilesGet validFileId "name, mimeType, size") fun meta =>
  let mimeType := meta.mimeType
  if isWorkspaceMime mimeType then
    let exportMimeType := downloadExportMime mimeType
    DriveM.bind (callFilesExport validFileId exportMimeType) fun content =>
    DriveM.pure ("📥 File: " ++ showOpt meta.name ++ "\n" ++
      "Type: " ++ showOpt mimeType ++ "\n" ++
      "Content:\n\n" ++ content)
  else
    DriveM.bind (callFilesGetMedia validFileId) fun content =>
    DriveM.pure ("📥 File: " ++ showOpt meta.name ++ "\n" ++
      "Type: " ++ showOpt mimeType ++ "\n" ++
      "Size: " ++ formatFileSize meta.size ++ "\n" ++
      "Content:\n\n" ++ content)

/-- `shareFile(fileId = "", email = "", role = "reader")`: a role outside
the closed set silently falls back to `"reader"`. -/
def shareFile (fileId email role : String) : DriveM String :=
  DriveM.bind (validateRequired fileId "fileId") fun validFileId =>
  DriveM.bind (validateRequired email "email") fun validEmail =>
  DriveM.bind getDriveClient fun _ =>
  let validRole := if ["reader", "writer", "commenter"].contains role then role
    else "reader"
  DriveM.bind (callPermissionsCreate validFileId "user" validRole validEmail) fun _ =>
  DriveM.bind (callFilesGet validFileId "name, webViewLink") fun fileInfo =>
  DriveM.pure ("✅ File shared successfully:\n" ++
    "File: " ++ showOpt fileInfo.name ++ "\n" ++
    "Shared with: " ++ validEmail ++ "\n" ++
    "Permission: " ++ validRole ++ "\n" ++
    "Link: " ++ jsOrDefault fileInfo.webViewLink "N/A")

/-- `deleteFile(fileId = "")`: fetch the name, then set the trashed flag. -/
def deleteFile (fileId : String) : DriveM String :=
  DriveM.bind (validateRequired fileId "fileId") fun validFileId =>
  DriveM.bind getDriveClient fun _ =>
  DriveM.bind (callFilesGet validFileId "name") fun fileInfo =>
  DriveM.bind (callFilesUpdate validFileId true) fun _ =>
  DriveM.pure ("✅ File moved to trash:\n" ++
    "Name: " ++ showOpt fileInfo.name ++ "\n" ++
    "ID: " ++ validFileId)

/-! ## Dispatcher (`CallToolRequestSchema` handler) -/

/-- Incoming tool arguments: a partial map from field name to string value. -/
def ToolArgs : Type := List (String × String)

/-- `(args?.k as string) || d`: absent or empty-string arguments fall back
to the default. -/
def getArg (args : ToolArgs) (k d : String) : String :=
  match List.lookup k args with
  | none => d
  | some v => if v = "" then d else v

/-- The result the dispatcher returns for one invocation: a single text
content block, plus the error flag (absent on the success path of the
source, modelled as `false`). -/
structure CallToolResult where
  text : String
  isError : Bool
deriving DecidableEq

/-- The ordered names of the tool registry (`TOOLS`). -/
def knownToolNames : List String :=
  ["list_files", "search_files", "get_file_metadata", "create_folder",
   "upload_file", "download_file", "share_file", "delete_file"]

/-- The `CallToolRequestSchema` handler: exhaustive match on the tool name,
argument coercion with string defaults, handler invocation wrapped as a text
result; an unknown name throws inside the dispatcher's own `try`, which is
the only error that reaches the dispatcher `catch` and so the only one
flagged `isError: true`.  The request trace of the invocation is returned
alongside. -/
def handleCallTool (env : DriveEnv) (name : String) (args : ToolArgs) :
    CallToolResult × List DriveReq :=
  if name = "list_files" then
    let r := runTool (listFiles (getArg args "folderId" "") (getArg args "pageSize" "10")) env
    ({ text := r.1, isError := false }, r.2)
  else if name = "search_files" then
    let r := runTool (searchFiles (getArg args "query" "") (getArg args "pageSize" "10")) env
    ({ text := r.1, isError := false }, r.2)
  else if name = "get_file_metadata" then
    let r := runTool (getFileMetadata (getArg args "fileId" "")) env
    ({ text := r.1, isError := false }, r.2)
  else if name = "create_folder" then
    let r := runTool (createFolder (getArg args "folderName" "") (getArg args "parentFolderId" "")) env
    ({ text := r.1, isError := false }, r.2)
  else if name = "upload_file" then
    let r := runTool (uploadFile (getArg args "fileName" "") (getArg args "content" "")
      (getArg args "mimeType" "text/plain") (getArg args "folderId" "")) env
    ({ text := r.1, isError := false }, r.2)
  else if name = "download_file" then
    let r := runTool (downloadFile (getArg args "fileId" "")) env
    ({ text := r.1, isError := false }, r.2)
  else if name = "share_file" then
    let r := runTool (shareFile (getArg args "fileId" "") (getArg args "email" "")
      (getArg args "role" "reader")) env
    ({ text := r.1, isError := false }, r.2)
  else if name = "delete_file" then
    let r := runTool (deleteFile (getArg args "fileId" "")) env
    ({ text := r.1, isError := false }, r.2)
  else
    ({ text := formatError ("Unknown tool: " ++ name), isError := true }, [])

/-! ## Concrete demonstration environments (for witnesses) -/

/-- A sample remote file record. -/
def demoFile : DriveFile :=
  { id := some "FILE-1", name := some "Report.txt", mimeType := some "text/plain",
    size := some "1536", modifiedTime := some "2024-01-01T00:00:00Z",
    webViewLink := some "https://drive.example/view" }

/-- An environment with full credentials whose remote oracle always
succeeds, answering every metadata request with `demoFile`. -/
def envOk : DriveEnv :=
  { clientId := "cid", clientSecret := "csec", refreshToken := "rtok",
    filesList := fun _ _ _ _ => Except.ok (some [demoFile]),
    filesGet := fun _ _ => Except.ok demoFile,
    filesGetMedia := fun _ => Except.ok "raw-bytes",
    filesExport := fun _ _ => Except.ok "exported-text",
    filesCreate := fun _ _ _ => Except.ok demoFile,
    permissionsCreate := fun _ _ _ _ => Except.ok (),
    filesUpdate := fun _ _ => Except.ok (),
    locale := fun s => s }

/-- An environment with an empty client id (missing credentials). -/
def envNoCreds : DriveEnv :=
  { envOk with clientId := "" }

/-- An environment whose metadata fetch always fails. -/
def envGetFails : DriveEnv :=
  { envOk with filesGet := fun _ _ => Except.error "File not found: 404" }

/-! ## Spec-side predicates -/

/-- All three credential secrets are present. -/
def credsOk (env : DriveEnv) : Prop :=
  env.clientId ≠ "" ∧ env.clientSecret ≠ "" ∧ env.refreshToken ≠ ""

/-- A request is acceptable for a soft-delete-only operation: any read is
fine, and the only permitted mutation is an update that sets `trashed`
to `true`; in particular a permanent `files.delete` is never acceptable. -/
def trashOnlyMutation : DriveReq → Bool
  | DriveReq.filesUpdate _ trashed => trashed
  | DriveReq.filesDelete _ => false
  | DriveReq.filesCreate _ _ _ => false
  | DriveReq.permissionsCreate _ _ _ _ => false
  | _ => true

/-- A `files.list` request carries exactly the effective page size computed
from the given `pageSize` argument string. -/
def pageSizeOk (ps : String) : DriveReq → Bool
  | DriveReq.filesList p _ _ _ => p == jsToPageSize ps
  | _ => true

/-- `sub` occurs verbatim (as a contiguous character run) inside `s`. -/
def StrContains (s sub : String) : Prop :=
  ∃ l r : List Char, s.data = l ++ sub.data ++ r
/-- C6: invoking `search_files` with an empty (or whitespace-only) `query`
fails validation and returns the validation error with an empty request
trace: no `files.list` call is issued and the failure occurs before client
construction (the environment, including its credentials, is arbitrary). -/
theorem searchFiles_empty_query_no_remote_call (env : DriveEnv) (q ps : String)
    (hq : jsTrim q = "") :
    runTool (searchFiles q ps) env = (formatError "query is required", []) := by
  simp [runTool, searchFiles, DriveM.bind, validateRequired, hq]

/-- Witness for C6 at the spec's concrete input `{query: "", pageSize: "5"}`. -/
theorem searchFiles_empty_query_no_remote_call_witness :
    runTool (searchFiles "" "5") envNoCreds = (formatError "query is required", []) :=
  searchFiles_empty_query_no_remote_call envNoCreds "" "5" (by decide)

/-- C5: every request `deleteFile` ever issues is either a read or the
trash-flag update `files.update {trashed: true}`; a permanent
`files.delete` is never issued, on any path (arbitrary environment,
arbitrary argument, success or failure). -/
theorem deleteFile_trash_only (env : DriveEnv) (fid : String) :
    ((runTool (deleteFile fid) env).2).all trashOnlyMutation = true := by
  by_cases hv : jsTrim fid = ""
  · simp [runTool, deleteFile, DriveM.bind, validateRequired, hv]
  · by_cases hc : env.clientId = "" ∨ env.clientSecret = "" ∨ env.refreshToken = ""
    · simp [runTool, deleteFile, DriveM.bind, validateRequired, hv, getDriveClient, hc]
    · cases hg : env.filesGet (jsTrim fid) "name" with
      | error e =>
        simp [runTool, deleteFile, DriveM.bind, validateRequired, hv, getDriveClient,
          hc, callFilesGet, hg, trashOnlyMutation]
      | ok f =>
        cases hu : env.filesUpdate (jsTrim fid) true with
        | error e =>
          simp [runTool, deleteFile, DriveM.bind, validateRequired, hv, getDriveClient,
            hc, callFilesGet, hg, callFilesUpdate, hu, trashOnlyMutation]
        | ok u =>
          simp [runTool, deleteFile, DriveM.bind, validateRequired, hv, getDriveClient,
            hc, callFilesGet, hg, callFilesUpdate, hu, DriveM.pure, trashOnlyMutation]

/-! ## Small unfolding lemmas for the handler steps -/

lemma getDriveClient_missing {env : DriveEnv}
    (h : env.clientId = "" ∨ env.clientSecret = "" ∨ env.refreshToken = "")
    (t : List DriveReq) : getDriveClient env t = (Except.error missingCredsMsg, t) := by
  simp only [getDriveClient]
  rw [if_pos h]

lemma getDriveClient_ok {env : DriveEnv} (h : credsOk env) (t : List DriveReq) :
    getDriveClient env t = (Except.ok (), t) := by
  obtain ⟨h1, h2, h3⟩ := h
  simp [getDriveClient, h1, h2, h3]

lemma validateRequired_ok {v : String} (n : String) (h : jsTrim v ≠ "")
    (env : DriveEnv) (t : List DriveReq) :
    validateRequired v n env t = (Except.ok (jsTrim v), t) := by
  simp [validateRequired, h]

lemma validateRequired_fail {v : String} (n : String) (h : jsTrim v = "")
    (env : DriveEnv) (t : List DriveReq) :
    validateRequired v n env t = (Except.error (n ++ " is required"), t) := by
  simp [validateRequired, h]

/-- C10: `deleteFile` is atomic on error.  If validation fails, no request
at all is issued; if the metadata fetch of the name fails, the trace is that
single read and the trash update is never issued; and on success the update
is issued strictly after the name fetch. -/
theorem deleteFile_atomic_on_error (env : DriveEnv) (fid : String) :
    (jsTrim fid = "" →
      runTool (deleteFile fid) env = (formatError "fileId is required", [])) ∧
    (∀ e, credsOk env → jsTrim fid ≠ "" →
      env.filesGet (jsTrim fid) "name" = Except.error e →
      runTool (deleteFile fid) env =
        (formatError e, [DriveReq.filesGet (jsTrim fid) "name"])) ∧
    (∀ f, credsOk env → jsTrim fid ≠ "" →
      env.filesGet (jsTrim fid) "name" = Except.ok f →
      (runTool (deleteFile fid) env).2 =
        [DriveReq.filesGet (jsTrim fid) "name",
         DriveReq.filesUpdate (jsTrim fid) true]) := by
  refine ⟨fun hv => ?_, fun e hcr hv hg => ?_, fun f hcr hv hg => ?_⟩
  · simp [runTool, deleteFile, DriveM.bind, validateRequired_fail _ hv]
  · simp [runTool, deleteFile, DriveM.bind, validateRequired_ok _ hv,
      getDriveClient_ok hcr, callFilesGet, hg]
  · cases hu : env.filesUpdate (jsTrim fid) true with
    | error e =>
      simp [runTool, deleteFile, DriveM.bind, validateRequired_ok _ hv,
        getDriveClient_ok hcr, callFilesGet, hg, callFilesUpdate, hu]
    | ok u =>
      simp [runTool, deleteFile, DriveM.bind, validateRequired_ok _ hv,
        getDriveClient_ok hcr, callFilesGet, hg, callFilesUpdate, hu, DriveM.pure]

/-- Witness for C10 at a concrete failing metadata fetch. -/
theorem deleteFile_atomic_on_error_witness :
    runTool (deleteFile "f1") envGetFails =
      (formatError "File not found: 404", [DriveReq.filesGet "f1" "name"]) :=
  (deleteFile_atomic_on_error envGetFails "f1").2.1 "File not found: 404"
    (by exact ⟨by decide, by decide, by decide⟩) (by decide) rfl

/-- C8: when any of the three credential secrets is empty, every handler
invocation that reaches the point of needing remote access fails with the
configuration error, rendered as formatted text, and its request trace is
empty: client construction throws before any request is issued.  (Arguments
are assumed to pass the handler's own validation, which precedes the client
check in all handlers but `listFiles`, which validates nothing.) -/
theorem missing_creds_no_remote_call (env : DriveEnv)
    (hmiss : env.clientId = "" ∨ env.clientSecret = "" ∨ env.refreshToken = "") :
    (∀ folderId ps, runTool (listFiles folderId ps) env =
      (formatError missingCredsMsg, [])) ∧
    (∀ q ps, jsTrim q ≠ "" → runTool (searchFiles q ps) env =
      (formatError missingCredsMsg, [])) ∧
    (∀ fid, jsTrim fid ≠ "" → runTool (getFileMetadata fid) env =
      (formatError missingCredsMsg, [])) ∧
    (∀ n p, jsTrim n ≠ "" → runTool (createFolder n p) env =
      (formatError missingCredsMsg, [])) ∧
    (∀ fn c mt fo, jsTrim fn ≠ "" → jsTrim c ≠ "" →
      runTool (uploadFile fn c mt fo) env = (formatError missingCredsMsg, [])) ∧
    (∀ fid, jsTrim fid ≠ "" → runTool (downloadFile fid) env =
      (formatError missingCredsMsg, [])) ∧
    (∀ fid em r, jsTrim fid ≠ "" → jsTrim em ≠ "" →
      runTool (shareFile fid em r) env = (formatError missingCredsMsg, [])) ∧
    (∀ fid, jsTrim fid ≠ "" → runTool (deleteFile fid) env =
      (formatError missingCredsMsg, [])) := by
  refine ⟨fun folderId ps => ?_, fun q ps hv => ?_, fun fid hv => ?_,
    fun n p hv => ?_, fun fn c mt fo hv1 hv2 => ?_, fun fid hv => ?_,
    fun fid em r hv1 hv2 => ?_, fun fid hv => ?_⟩
  · simp [runTool, listFiles, DriveM.bind, getDriveClient_missing hmiss]
  · simp [runTool, searchFiles, DriveM.bind, validateRequired_ok _ hv,
      getDriveClient_missing hmiss]
  · simp [runTool, getFileMetadata, DriveM.bind, validateRequired_ok _ hv,
      getDriveClient_missing hmiss]
  · simp [runTool, createFolder, DriveM.bind, validateRequired_ok _ hv,
      getDriveClient_missing hmiss]
  · simp [runTool, uploadFile, DriveM.bind, validateRequired_ok _ hv1,
      validateRequired_ok _ hv2, getDriveClient_missing hmiss]
  · simp [runTool, downloadFile, DriveM.bind, validateRequired_ok _ hv,
      getDriveClient_missing hmiss]
  · simp [runTool, shareFile, DriveM.bind, validateRequired_ok _ hv1,
      validateRequired_ok _ hv2, getDriveClient_missing hmiss]
  · simp [runTool, deleteFile, DriveM.bind, validateRequired_ok _ hv,
      getDriveClient_missing hmiss]

/-- Witness for C8: with an empty client id, `list_files` and `delete_file`
both return the configuration error without any remote request. -/
theorem missing_creds_no_remote_call_witness :
    runTool (listFiles "" "10") envNoCreds = (formatError missingCredsMsg, []) ∧
    runTool (deleteFile "f1") envNoCreds = (formatError missingCredsMsg, []) :=
  ⟨(missing_creds_no_remote_call envNoCreds (Or.inl rfl)).1 "" "10",
   (missing_creds_no_remote_call envNoCreds (Or.inl rfl)).2.2.2.2.2.2.2 "f1" (by decide)⟩

set_option maxRecDepth 8192

/-- C4: `shareFile` with a role outside {reader, writer, commenter} creates
the permission with role `"reader"`, reports `"reader"` in its rendered
output, and raises no error for the out-of-set role. -/
theorem shareFile_invalid_role_falls_back_to_reader (env : DriveEnv)
    (fid em role : String) (f : DriveFile)
    (hcr : credsOk env) (hfid : jsTrim fid ≠ "") (hem : jsTrim em ≠ "")
    (hrole : (["reader", "writer", "commenter"].contains role) = false)
    (hperm : env.permissionsCreate (jsTrim fid) "user" "reader" (jsTrim em) =
      Except.ok ())
    (hget : env.filesGet (jsTrim fid) "name, webViewLink" = Except.ok f) :
    runTool (shareFile fid em role) env =
      ("✅ File shared successfully:\n" ++
        "File: " ++ showOpt f.name ++ "\n" ++
        "Shared with: " ++ jsTrim em ++ "\n" ++
        "Permission: " ++ "reader" ++ "\n" ++
        "Link: " ++ jsOrDefault f.webViewLink "N/A",
       [DriveReq.permissionsCreate (jsTrim fid) "user" "reader" (jsTrim em),
        DriveReq.filesGet (jsTrim fid) "name, webViewLink"]) := by
  have hrole2 : ¬(role = "reader" ∨ role = "writer" ∨ role = "commenter") := by
    simpa using hrole
  simp [runTool, shareFile, DriveM.bind, validateRequired_ok _ hfid,
    validateRequired_ok _ hem, getDriveClient_ok hcr, hrole,
    hrole2, callPermissionsCreate, hperm, callFilesGet, hget, DriveM.pure]

/-- Witness for C4 at role `"admin"`. -/
theorem shareFile_invalid_role_witness :
    runTool (shareFile "f1" "user@example.com" "admin") envOk =
      ("✅ File shared successfully:\n" ++
        "File: " ++ showOpt demoFile.name ++ "\n" ++
        "Shared with: " ++ jsTrim "user@example.com" ++ "\n" ++
        "Permission: " ++ "reader" ++ "\n" ++
        "Link: " ++ jsOrDefault demoFile.webViewLink "N/A",
       [DriveReq.permissionsCreate (jsTrim "f1") "user" "reader"
          (jsTrim "user@example.com"),
        DriveReq.filesGet (jsTrim "f1") "name, webViewLink"]) :=
  shareFile_invalid_role_falls_back_to_reader envOk "f1" "user@example.com"
    "admin" demoFile ⟨by decide, by decide, by decide⟩ (by decide) (by decide)
    (by decide) rfl rfl

/-- C3: `downloadFile` first fetches metadata; when the mimeType is a native
workspace type (prefix `application/vnd.google-apps.`) it issues a
format-conversion export — `text/plain` for documents and presentations,
`text/csv` for spreadsheets — and never a raw-media download; for every
other mimeType (including an absent one) it issues exactly one raw-media
download and no export. -/
theorem downloadFile_export_vs_media (env : DriveEnv) (fid : String)
    (f : DriveFile) (hcr : credsOk env) (hfid : jsTrim fid ≠ "")
    (hget : env.filesGet (jsTrim fid) "name, mimeType, size" = Except.ok f) :
    (isWorkspaceMime f.mimeType = true →
      (runTool (downloadFile fid) env).2 =
        [DriveReq.filesGet (jsTrim fid) "name, mimeType, size",
         DriveReq.filesExport (jsTrim fid) (downloadExportMime f.mimeType)]) ∧
    (isWorkspaceMime f.mimeType = false →
      (runTool (downloadFile fid) env).2 =
        [DriveReq.filesGet (jsTrim fid) "name, mimeType, size",
         DriveReq.filesGetMedia (jsTrim fid)]) ∧
    downloadExportMime (some "application/vnd.google-apps.document") = "text/plain" ∧
    downloadExportMime (some "application/vnd.google-apps.spreadsheet") = "text/csv" ∧
    downloadExportMime (some "application/vnd.google-apps.presentation") = "text/plain" ∧
    isWorkspaceMime (some "application/vnd.google-apps.spreadsheet") = true := by
  refine ⟨fun hw => ?_, fun hw => ?_, by decide, by decide, by decide, by decide⟩
  · cases he : env.filesExport (jsTrim fid) (downloadExportMime f.mimeType) with
    | error e =>
      simp [runTool, downloadFile, DriveM.bind, validateRequired_ok _ hfid,
        getDriveClient_ok hcr, callFilesGet, hget, hw, callFilesExport, he]
    | ok c =>
      simp [runTool, downloadFile, DriveM.bind, validateRequired_ok _ hfid,
        getDriveClient_ok hcr, callFilesGet, hget, hw, callFilesExport, he,
        DriveM.pure]
  · cases hm : env.filesGetMedia (jsTrim fid) with
    | error e =>
      simp [runTool, downloadFile, DriveM.bind, validateRequired_ok _ hfid,
        getDriveClient_ok hcr, callFilesGet, hget, hw, callFilesGetMedia, hm]
    | ok c =>
      simp [runTool, downloadFile, DriveM.bind, validateRequired_ok _ hfid,
        getDriveClient_ok hcr, callFilesGet, hget, hw, callFilesGetMedia, hm,
        DriveM.pure]

/-- Witness for C3: `demoFile` has mimeType `text/plain`, so the raw-media
path is taken. -/
theorem downloadFile_export_vs_media_witness :
    (runTool (downloadFile "f1") envOk).2 =
      [DriveReq.filesGet (jsTrim "f1") "name, mimeType, size",
       DriveReq.filesGetMedia (jsTrim "f1")] :=
  (downloadFile_export_vs_media envOk "f1" demoFile
    ⟨by decide, by decide, by decide⟩ (by decide) rfl).2.1 (by decide)

/-- C7 counterexample: `pageSize = "0"` parses to the number 0, whose clamp
to [1,100] would be 1, but the `|| 10` default treats 0 as unset, so the
effective page size is 10 — the claim's "numeric value clamped to [1,100]"
does not hold for parseable input "0". -/
theorem pageSize_clamp_counterexample :
    jsToPageSize "0" = 10 ∧ jsParseInt "0" = some 0 ∧
    min (max (0 : Int) 1) 100 = 1 ∧ (10 : Int) ≠ 1 := by
  refine ⟨by decide, by decide, ?_, by decide⟩
  decide

/-- C7 (amended): the effective page size is `clamp(v, 1, 100)` where `v` is
the parsed value when `pageSize` parses to a nonzero number, and 10 when it
fails to parse **or parses to 0** (the `|| 10` default also fires on the
falsy number 0); it always lies in [1,100]; and every `files.list` request
issued by `listFiles` or `searchFiles` carries exactly this value. -/
theorem pageSize_clamped_spec :
    (∀ s, 1 ≤ jsToPageSize s ∧ jsToPageSize s ≤ 100) ∧
    (∀ s n, jsParseInt s = some n → n ≠ 0 →
      jsToPageSize s = min (max n 1) 100) ∧
    (∀ s, jsParseInt s = none → jsToPageSize s = 10) ∧
    (∀ s, jsParseInt s = some 0 → jsToPageSize s = 10) ∧
    (∀ env folderId ps,
      ((runTool (listFiles folderId ps) env).2).all (pageSizeOk ps) = true) ∧
    (∀ env q ps,
      ((runTool (searchFiles q ps) env).2).all (pageSizeOk ps) = true) := by
  refine ⟨fun s => ?_, fun s n hp hn => ?_, fun s hp => ?_, fun s hp => ?_,
    fun env folderId ps => ?_, fun env q ps => ?_⟩
  · constructor
    · simp only [jsToPageSize]
      rcases le_total (match jsParseInt s with
        | none => (10 : Int)
        | some n => if n = 0 then 10 else n) 1 with h | h <;>
        simp [min_def, max_def] <;> omega
    · simp only [jsToPageSize]
      rcases le_total (match jsParseInt s with
        | none => (10 : Int)
        | some n => if n = 0 then 10 else n) 1 with h | h <;>
        simp [min_def, max_def] <;> omega
  · simp [jsToPageSize, hp, hn]
  · simp [jsToPageSize, hp]
  · simp [jsToPageSize, hp]
  · by_cases hc : env.clientId = "" ∨ env.clientSecret = "" ∨ env.refreshToken = ""
    · simp [runTool, listFiles, DriveM.bind, getDriveClient_missing hc]
    · cases hl : env.filesList (jsToPageSize ps)
        (if folderId ≠ "" ∧ jsTrim folderId ≠ "" then
          "trashed = false and '" ++ jsTrim folderId ++ "' in parents"
         else "trashed = false")
        "files(id, name, mimeType, size, modifiedTime, webViewLink, iconLink)"
        "modifiedTime desc" with
      | error e =>
        simp [runTool, listFiles, DriveM.bind, getDriveClient, hc,
          callFilesList, hl, pageSizeOk]
      | ok files? =>
        rcases files? with _ | (_ | ⟨f0, files⟩) <;>
          simp [runTool, listFiles, DriveM.bind, getDriveClient, hc,
            callFilesList, hl, getEnv, DriveM.pure, pageSizeOk, List.isEmpty]
  · by_cases hv : jsTrim q = ""
    · simp [runTool, searchFiles, DriveM.bind, validateRequired_fail _ hv]
    · by_cases hc : env.clientId = "" ∨ env.clientSecret = "" ∨ env.refreshToken = ""
      · simp [runTool, searchFiles, DriveM.bind, validateRequired_ok _ hv,
          getDriveClient_missing hc]
      · cases hl : env.filesList (jsToPageSize ps)
          ("name contains '" ++ jsTrim q ++ "' and trashed = false")
          "files(id, name, mimeType, size, modifiedTime, webViewLink)"
          "modifiedTime desc" with
        | error e =>
          simp [runTool, searchFiles, DriveM.bind, validateRequired_ok _ hv,
            getDriveClient, hc, callFilesList, hl, pageSizeOk]
        | ok files? =>
          rcases files? with _ | (_ | ⟨f0, files⟩) <;>
            simp [runTool, searchFiles, DriveM.bind, validateRequired_ok _ hv,
              getDriveClient, hc, callFilesList, hl, getEnv, DriveM.pure,
              pageSizeOk, List.isEmpty]

/-- Witness for C7 (amended) at concrete inputs: "5" clamps to 5, "250"
clamps to 100, "abc" defaults to 10. -/
theorem pageSize_clamped_spec_witness :
    jsToPageSize "5" = min (max 5 1) 100 ∧ jsToPageSize "abc" = 10 ∧
    (1 ≤ jsToPageSize "250" ∧ jsToPageSize "250" ≤ 100) :=
  ⟨pageSize_clamped_spec.2.1 "5" 5 (by decide) (by decide),
   pageSize_clamped_spec.2.2.1 "abc" (by decide),
   pageSize_clamped_spec.1 "250"⟩

/-- C1 counterexample: a validation error raised inside the `searchFiles`
handler (empty `query`) is caught at the handler boundary and rendered as
formatted error text, but the dispatcher result's `isError` flag is `false`,
not `true` — the success path of the dispatcher never sets the flag. -/
theorem handler_error_isError_false_counterexample :
    (handleCallTool envOk "search_files" [("query", ""), ("pageSize", "5")]).1 =
      { text := formatError "query is required", isError := false } := by
  decide

/-- C1 (amended): no error escapes the dispatcher — every invocation totally
returns a text result — and the `isError` flag is `true` exactly when the
tool name is unknown (the only error that reaches the dispatcher's own
`catch`); errors raised inside a known tool's handler are caught at the
handler boundary and rendered into the text with `isError` left `false`. -/
theorem dispatcher_isError_iff_unknown_tool (env : DriveEnv) (name : String)
    (args : ToolArgs) :
    (handleCallTool env name args).1.isError = !(knownToolNames.contains name) := by
  simp only [handleCallTool, knownToolNames]
  split_ifs with h1 h2 h3 h4 h5 h6 h7 h8 <;>
    simp_all [List.contains]

/-- Characterisation of the scaling loop: it divides by 1024 exactly `k`
times, where `k ≤ 4` is minimal with `q / 1024 ^ k < 1024` (capped at the
TB index 4, which is uncapped in magnitude). -/
lemma scaleLoop_spec (q : ℚ) :
    ∃ k, k ≤ 4 ∧ scaleLoop q = (q / 1024 ^ k, k) ∧
      (q / 1024 ^ k < 1024 ∨ k = 4) ∧
      (∀ j, j < k → 1024 ≤ q / 1024 ^ j) := by
  have e1 : q / 1024 = q / 1024 ^ 1 := by ring
  have e2 : q / 1024 / 1024 = q / 1024 ^ 2 := by ring
  have e3 : q / 1024 / 1024 / 1024 = q / 1024 ^ 3 := by ring
  have e4 : q / 1024 / 1024 / 1024 / 1024 = q / 1024 ^ 4 := by ring
  by_cases h0 : 1024 ≤ q
  · by_cases h1 : 1024 ≤ q / 1024
    · by_cases h2 : 1024 ≤ q / 1024 / 1024
      · by_cases h3 : 1024 ≤ q / 1024 / 1024 / 1024
        · have raw : scaleLoop q = (q / 1024 / 1024 / 1024 / 1024, 4) := by
            simp [scaleLoop, scaleLoopF, h0, h1, h2, h3]
          refine ⟨4, le_refl 4, ?_, Or.inr rfl, ?_⟩
          · rw [raw, e4]
          · intro j hj
            interval_cases j
            · simpa using h0
            · rw [← e1]; exact h1
            · rw [← e2]; exact h2
            · rw [← e3]; exact h3
        · have raw : scaleLoop q = (q / 1024 / 1024 / 1024, 3) := by
            simp [scaleLoop, scaleLoopF, h0, h1, h2, h3]
          refine ⟨3, by norm_num, ?_, Or.inl ?_, ?_⟩
          · rw [raw, e3]
          · rw [← e3]; exact lt_of_not_le h3
          · intro j hj
            interval_cases j
            · simpa using h0
            · rw [← e1]; exact h1
            · rw [← e2]; exact h2
      · have raw : scaleLoop q = (q / 1024 / 1024, 2) := by
          simp [scaleLoop, scaleLoopF, h0, h1, h2]
        refine ⟨2, by norm_num, ?_, Or.inl ?_, ?_⟩
        · rw [raw, e2]
        · rw [← e2]; exact lt_of_not_le h2
        · intro j hj
          interval_cases j
          · simpa using h0
          · rw [← e1]; exact h1
    · have raw : scaleLoop q = (q / 1024, 1) := by
        simp [scaleLoop, scaleLoopF, h0, h1]
      refine ⟨1, by norm_num, ?_, Or.inl ?_, ?_⟩
      · rw [raw, e1]
      · rw [← e1]; exact lt_of_not_le h1
      · intro j hj
        interval_cases j
        simpa using h0
  · refine ⟨0, by norm_num, ?_, Or.inl ?_, ?_⟩
    · simp [scaleLoop, scaleLoopF, h0]
    · simpa using lt_of_not_le h0
    · intro j hj
      omega

/-- `jsParseInt` rejects the empty string. -/
lemma jsParseInt_empty : jsParseInt "" = none := by decide

/-- C2: `formatFileSize` yields `"N/A"` for an absent or unparseable input;
otherwise it renders the value scaled by repeated division by 1024 to the
first unit index `k` (in B, KB, MB, GB, TB order) at which the scaled
magnitude is below 1024 — every smaller unit shows a magnitude of at least
1024, and the top unit TB (k = 4) is uncapped — with `toFixed(2)` and the
unit name; on input `"1536"` it yields `"1.50 KB"`. -/
theorem formatFileSize_spec :
    formatFileSize none = "N/A" ∧
    (∀ b, jsParseInt b = none → formatFileSize (some b) = "N/A") ∧
    (∀ b n, jsParseInt b = some n →
      ∃ k, k ≤ 4 ∧
        formatFileSize (some b) =
          toFixed2 ((n : ℚ) / 1024 ^ k) ++ " " ++ sizeUnit k ∧
        ((n : ℚ) / 1024 ^ k < 1024 ∨ k = 4) ∧
        (∀ j, j < k → 1024 ≤ (n : ℚ) / 1024 ^ j)) ∧
    formatFileSize (some "1536") = "1.50 KB" ∧
    sizeUnit 0 = "B" ∧ sizeUnit 1 = "KB" ∧ sizeUnit 2 = "MB" ∧
    sizeUnit 3 = "GB" ∧ sizeUnit 4 = "TB" := by
  refine ⟨rfl, fun b hb => ?_, fun b n hb => ?_, formatFileSize_1536,
    rfl, rfl, rfl, rfl, rfl⟩
  · by_cases hbe : b = ""
    · simp [formatFileSize, hbe]
    · simp [formatFileSize, hbe, hb]
  · have hbe : b ≠ "" := by
      intro h
      rw [h, jsParseInt_empty] at hb
      exact Option.noConfusion hb
    obtain ⟨k, hk4, hsl, hlt, hmin⟩ := scaleLoop_spec ((n : ℚ))
    exact ⟨k, hk4, by simp [formatFileSize, hbe, hb, hsl], hlt, hmin⟩

/-- Witness for C2 at concrete inputs. -/
theorem formatFileSize_spec_witness :
    formatFileSize (some "1536") = "1.50 KB" ∧
    formatFileSize (some "abc") = "N/A" ∧ formatFileSize none = "N/A" :=
  ⟨formatFileSize_spec.2.2.2.1, formatFileSize_spec.2.1 "abc" (by decide),
   formatFileSize_spec.1⟩

/-! ## Verbatim-containment helpers -/

lemma strContains_self (s : String) : StrContains s s :=
  ⟨[], [], by simp⟩

lemma strContains_left {t sub : String} (h : StrContains t sub) (s : String) :
    StrContains (s ++ t) sub := by
  obtain ⟨l, r, hl⟩ := h
  exact ⟨s.data ++ l, r, by simp [String.data_append, hl]⟩

lemma strContains_right {s sub : String} (h : StrContains s sub) (t : String) :
    StrContains (s ++ t) sub := by
  obtain ⟨l, r, hl⟩ := h
  exact ⟨l, r ++ t.data, by simp [String.data_append, hl]⟩

/-- A list entry contains the file's name verbatim. -/
lemma renderFileEntry_contains_name (locale : String → String) (idx : Nat)
    (f : DriveFile) (n : String) (hn : f.name = some n) :
    StrContains (renderFileEntry locale idx f) n := by
  simp only [renderFileEntry, hn, showOpt]
  repeat first
    | exact strContains_left (strContains_self _) _
    | apply strContains_right

/-- A list entry contains the file's id verbatim. -/
lemma renderFileEntry_contains_id (locale : String → String) (idx : Nat)
    (f : DriveFile) (i : String) (hi : f.id = some i) :
    StrContains (renderFileEntry locale idx f) i := by
  simp only [renderFileEntry, hi, showOpt]
  repeat first
    | exact strContains_left (strContains_self _) _
    | apply strContains_right

/-- The metadata rendering contains the file's name verbatim. -/
lemma renderMetadata_contains_name (locale : String → String)
    (f : DriveFile) (n : String) (hn : f.name = some n) :
    StrContains (renderMetadata locale f) n := by
  simp only [renderMetadata, hn, showOpt]
  repeat first
    | exact strContains_left (strContains_self _) _
    | apply strContains_right

/-- The metadata rendering contains the file's id verbatim. -/
lemma renderMetadata_contains_id (locale : String → String)
    (f : DriveFile) (i : String) (hi : f.id = some i) :
    StrContains (renderMetadata locale f) i := by
  simp only [renderMetadata, hi, showOpt]
  repeat first
    | exact strContains_left (strContains_self _) _
    | apply strContains_right

/-- C9: round-trip of identity values.  For every handler and every
successful execution, the rendered text contains verbatim (as a contiguous
substring, with no truncation or re-encoding) the name and — for the five
handlers whose field projection requests it (`listFiles`, `searchFiles`,
`getFileMetadata`, `createFolder`, `uploadFile`) — the id returned by the
remote client.  `downloadFile`, `shareFile` and `deleteFile` request only
`name` (plus non-identity fields) from the remote service, so the name is
the only identity value passed back, and it appears verbatim. -/
theorem rendered_text_contains_remote_id_and_name (env : DriveEnv)
    (f : DriveFile) (i n mc ec : String)
    (hcr : credsOk env) (hi : f.id = some i) (hn : f.name = some n)
    (hList : ∀ a b c d, env.filesList a b c d = Except.ok (some [f]))
    (hGet : ∀ a b, env.filesGet a b = Except.ok f)
    (hCreate : ∀ a b c, env.filesCreate a b c = Except.ok f)
    (hPerm : ∀ a b c d, env.permissionsCreate a b c d = Except.ok ())
    (hMedia : ∀ a, env.filesGetMedia a = Except.ok mc)
    (hExport : ∀ a b, env.filesExport a b = Except.ok ec)
    (hUpdate : ∀ a b, env.filesUpdate a b = Except.ok ()) :
    (∀ folderId ps,
      StrContains (runTool (listFiles folderId ps) env).1 i ∧
      StrContains (runTool (listFiles folderId ps) env).1 n) ∧
    (∀ q ps, jsTrim q ≠ "" →
      StrContains (runTool (searchFiles q ps) env).1 i ∧
      StrContains (runTool (searchFiles q ps) env).1 n) ∧
    (∀ fid, jsTrim fid ≠ "" →
      StrContains (runTool (getFileMetadata fid) env).1 i ∧
      StrContains (runTool (getFileMetadata fid) env).1 n) ∧
    (∀ fn p, jsTrim fn ≠ "" →
      StrContains (runTool (createFolder fn p) env).1 i ∧
      StrContains (runTool (createFolder fn p) env).1 n) ∧
    (∀ fn c mt fo, jsTrim fn ≠ "" → jsTrim c ≠ "" →
      StrContains (runTool (uploadFile fn c mt fo) env).1 i ∧
      StrContains (runTool (uploadFile fn c mt fo) env).1 n) ∧
    (∀ fid, jsTrim fid ≠ "" →
      StrContains (runTool (downloadFile fid) env).1 n) ∧
    (∀ fid em r, jsTrim fid ≠ "" → jsTrim em ≠ "" →
      StrContains (runTool (shareFile fid em r) env).1 n) ∧
    (∀ fid, jsTrim fid ≠ "" →
      StrContains (runTool (deleteFile fid) env).1 n) := by
  have hlist1 : ∀ locale idx,
      renderEntries locale idx [f] = renderFileEntry locale idx f := by
    intro locale idx
    simp [renderEntries]
  refine ⟨fun folderId ps => ?_, fun q ps hv => ?_, fun fid hv => ?_,
    fun fn p hv => ?_, fun fn c mt fo hv1 hv2 => ?_, fun fid hv => ?_,
    fun fid em r hv1 hv2 => ?_, fun fid hv => ?_⟩
  · rw [show (runTool (listFiles folderId ps) env).1 =
        "📁 Found " ++ toString (1 : Nat) ++ " file(s):\n\n" ++
          renderEntries env.locale 0 [f] by
      simp [runTool, listFiles, DriveM.bind, getDriveClient_ok hcr,
        callFilesList, hList, getEnv, DriveM.pure, List.isEmpty]]
    rw [hlist1]
    exact ⟨strContains_left (renderFileEntry_contains_id _ _ _ _ hi) _,
      strContains_left (renderFileEntry_contains_name _ _ _ _ hn) _⟩
  · rw [show (runTool (searchFiles q ps) env).1 =
        "🔍 Found " ++ toString (1 : Nat) ++ " file(s) matching \"" ++
          jsTrim q ++ "\":\n\n" ++ renderEntries env.locale 0 [f] by
      simp [runTool, searchFiles, DriveM.bind, validateRequired_ok _ hv,
        getDriveClient_ok hcr, callFilesList, hList, getEnv, DriveM.pure,
        List.isEmpty]]
    rw [hlist1]
    exact ⟨strContains_left (renderFileEntry_contains_id _ _ _ _ hi) _,
      strContains_left (renderFileEntry_contains_name _ _ _ _ hn) _⟩
  · rw [show (runTool (getFileMetadata fid) env).1 =
        renderMetadata env.locale f by
      simp [runTool, getFileMetadata, DriveM.bind, validateRequired_ok _ hv,
        getDriveClient_ok hcr, callFilesGet, hGet, getEnv, DriveM.pure]]
    exact ⟨renderMetadata_contains_id _ _ _ hi,
      renderMetadata_contains_name _ _ _ hn⟩
  · rw [show (runTool (createFolder fn p) env).1 =
        "✅ Folder created successfully:\n" ++ "Name: " ++ n ++ "\n" ++
          "ID: " ++ i ++ "\n" ++ "Link: " ++ jsOrDefault f.webViewLink "N/A" by
      simp [runTool, createFolder, DriveM.bind, validateRequired_ok _ hv,
        getDriveClient_ok hcr, callFilesCreate, hCreate, DriveM.pure, hi, hn,
        showOpt]]
    constructor
    all_goals repeat first
      | exact strContains_left (strContains_self _) _
      | apply strContains_right
  · rw [show (runTool (uploadFile fn c mt fo) env).1 =
        "✅ File uploaded successfully:\n" ++ "Name: " ++ n ++ "\n" ++
          "ID: " ++ i ++ "\n" ++ "Size: " ++ formatFileSize f.size ++ "\n" ++
          "Link: " ++ jsOrDefault f.webViewLink "N/A" by
      simp [runTool, uploadFile, DriveM.bind, validateRequired_ok _ hv1,
        validateRequired_ok _ hv2, getDriveClient_ok hcr, callFilesCreate,
        hCreate, DriveM.pure, hi, hn, showOpt]]
    constructor
    all_goals repeat first
      | exact strContains_left (strContains_self _) _
      | apply strContains_right
  · by_cases hw : isWorkspaceMime f.mimeType
    · rw [show (runTool (downloadFile fid) env).1 =
          "📥 File: " ++ n ++ "\n" ++ "Type: " ++ showOpt f.mimeType ++ "\n" ++
            "Content:\n\n" ++ ec by
        simp [runTool, downloadFile, DriveM.bind, validateRequired_ok _ hv,
          getDriveClient_ok hcr, callFilesGet, hGet, hw, callFilesExport,
          hExport, DriveM.pure, hn, showOpt]]
      repeat first
        | exact strContains_left (strContains_self _) _
        | apply strContains_right
    · rw [show (runTool (downloadFile fid) env).1 =
          "📥 File: " ++ n ++ "\n" ++ "Type: " ++ showOpt f.mimeType ++ "\n" ++
            "Size: " ++ formatFileSize f.size ++ "\n" ++
            "Content:\n\n" ++ mc by
        simp [runTool, downloadFile, DriveM.bind, validateRequired_ok _ hv,
          getDriveClient_ok hcr, callFilesGet, hGet, hw, callFilesGetMedia,
          hMedia, DriveM.pure, hn, showOpt]]
      repeat first
        | exact strContains_left (strContains_self _) _
        | apply strContains_right
  · rw [show (runTool (shareFile fid em r) env).1 =
        "✅ File shared successfully:\n" ++ "File: " ++ n ++ "\n" ++
          "Shared with: " ++ jsTrim em ++ "\n" ++ "Permission: " ++
          (if ["reader", "writer", "commenter"].contains r then r
           else "reader") ++ "\n" ++
          "Link: " ++ jsOrDefault f.webViewLink "N/A" by
      simp [runTool, shareFile, DriveM.bind, validateRequired_ok _ hv1,
        validateRequired_ok _ hv2, getDriveClient_ok hcr,
        callPermissionsCreate, hPerm, callFilesGet, hGet, DriveM.pure, hn,
        showOpt]]
    repeat first
      | exact strContains_left (strContains_self _) _
      | apply strContains_right
  · rw [show (runTool (deleteFile fid) env).1 =
        "✅ File moved to trash:\n" ++ "Name: " ++ n ++ "\n" ++
          "ID: " ++ jsTrim fid by
      simp [runTool, deleteFile, DriveM.bind, validateRequired_ok _ hv,
        getDriveClient_ok hcr, callFilesGet, hGet, callFilesUpdate, hUpdate,
        DriveM.pure, hn, showOpt]]
    repeat first
      | exact strContains_left (strContains_self _) _
      | apply strContains_right

/-- Witness for C9 at the concrete environment `envOk` and `demoFile`. -/
theorem rendered_text_contains_remote_id_and_name_witness :
    StrContains (runTool (createFolder "Reports" "") envOk).1 "FILE-1" ∧
    StrContains (runTool (createFolder "Reports" "") envOk).1 "Report.txt" :=
  (rendered_text_contains_remote_id_and_name envOk demoFile "FILE-1"
    "Report.txt" "raw-bytes" "exported-text"
    ⟨by decide, by decide, by decide⟩ rfl rfl
    (fun a b c d => rfl) (fun a b => rfl) (fun a b c => rfl)
    (fun a b c d => rfl) (fun a => rfl) (fun a b => rfl)
    (fun a b => rfl)).2.2.2.1 "Reports" "" (by decide)
